import Mathlib

/-!
Shallow embedding of `macos_performance_monitor.py` (class
`MacOSPerformanceMonitor`). Machine floats and timestamps are modelled as
exact rationals; Python `round(x, 2)` (round half to even) is `round2`;
`time.time()` values are passed explicitly as a `now : ℚ` argument; the
psutil reads and the `powermetrics` subprocess are passed in as explicit
inputs describing what the OS returned on that call.
-/

namespace PerfMon

/-- Python `round` at integer scale: round half to even. -/
def roundQ (q : ℚ) : ℤ :=
  if q - ⌊q⌋ < 1/2 then ⌊q⌋
  else if 1/2 < q - ⌊q⌋ then ⌊q⌋ + 1
  else if Even ⌊q⌋ then ⌊q⌋ else ⌊q⌋ + 1

/-- Python `round(x, 2)`. -/
def round2 (q : ℚ) : ℚ := (roundQ (q * 100) : ℚ) / 100

/-- The literal `1e-6` used as the elapsed-time floor in the source. -/
def epsilon : ℚ := 1 / 1000000

/-- Result of `psutil.net_io_counters()`. -/
structure NetIO where
  bytes_sent : ℚ
  bytes_recv : ℚ
  packets_sent : ℕ
  packets_recv : ℕ
  deriving Repr, DecidableEq

/-- Result of `psutil.disk_io_counters()` (when not `None`). -/
structure DiskIO where
  read_bytes : ℚ
  write_bytes : ℚ
  read_count : ℕ
  write_count : ℕ
  deriving Repr, DecidableEq

/-- Temperature dict: the only key ever stored is `cpu_temp_c`; the empty
dict is coerced to `None` by the source (`temps if temps else None`), so a
stored value is `Option ℚ`. -/
abbrev Temps := Option ℚ

/-- The mutable fields of `MacOSPerformanceMonitor` that the sampling
functions read and write (`__init__`, lines 28-56, minus render-only
state). -/
structure MonitorState where
  prev_net_io : NetIO
  prev_disk_io : DiskIO
  prev_sample_ts : ℚ
  last_temp : Temps
  last_temp_ts : ℚ
  enable_temps : Bool
  temp_refresh_seconds : ℚ
  proc_prime_ts : ℚ
  deriving Repr, DecidableEq

/-- Output dict of `get_network_info`. -/
structure NetworkInfo where
  bytes_sent_mib : ℚ
  bytes_recv_mib : ℚ
  send_rate_mib_s : ℚ
  recv_rate_mib_s : ℚ
  packets_sent : ℕ
  packets_recv : ℕ
  deriving Repr, DecidableEq

/-- `get_network_info` (lines 184-203): computes instantaneous rates from
the previous snapshot, then replaces the stored baseline counters and the
shared sample timestamp. Returns the dict and the updated state. -/
def get_network_info (s : MonitorState) (net_io : NetIO) (now : ℚ) :
    NetworkInfo × MonitorState :=
  let dt := max (now - s.prev_sample_ts) epsilon
  let sent_rate := (net_io.bytes_sent - s.prev_net_io.bytes_sent) / dt
  let recv_rate := (net_io.bytes_recv - s.prev_net_io.bytes_recv) / dt
  ({ bytes_sent_mib := round2 (net_io.bytes_sent / 1024 ^ 2)
     bytes_recv_mib := round2 (net_io.bytes_recv / 1024 ^ 2)
     send_rate_mib_s := round2 (sent_rate / 1024 ^ 2)
     recv_rate_mib_s := round2 (recv_rate / 1024 ^ 2)
     packets_sent := net_io.packets_sent
     packets_recv := net_io.packets_recv },
   { s with prev_net_io := net_io, prev_sample_ts := now })

/-- One entry of `psutil.disk_partitions()` together with what
`psutil.disk_usage(partition.mountpoint)` did for it: either a usage
reading or one of the two exceptions the source catches. -/
structure DiskUsage where
  total : ℚ
  used : ℚ
  free : ℚ
  percent : ℚ
  deriving Repr, DecidableEq

inductive UsageResult where
  | ok (u : DiskUsage)
  | permissionError
  | fileNotFoundError
  deriving Repr, DecidableEq

structure PartitionEntry where
  device : String
  mountpoint : String
  fstype : String
  usage : UsageResult
  deriving Repr, DecidableEq

/-- One element of the `disk_info` list built by `get_disk_info`. -/
structure PartitionRecord where
  device : String
  mountpoint : String
  fstype : String
  total_gib : ℚ
  used_gib : ℚ
  free_gib : ℚ
  percent : ℚ
  deriving Repr, DecidableEq

def mkPartitionRecord (p : PartitionEntry) (u : DiskUsage) : PartitionRecord :=
  { device := p.device
    mountpoint := p.mountpoint
    fstype := p.fstype
    total_gib := round2 (u.total / 1024 ^ 3)
    used_gib := round2 (u.used / 1024 ^ 3)
    free_gib := round2 (u.free / 1024 ^ 3)
    percent := u.percent }

/-- The `io_stats` dict of `get_disk_info`. -/
structure DiskIOStats where
  read_mib : ℚ
  write_mib : ℚ
  read_rate_mib_s : ℚ
  write_rate_mib_s : ℚ
  read_count : ℕ
  write_count : ℕ
  deriving Repr, DecidableEq

structure DiskReport where
  partitions : List PartitionRecord
  io_stats : Option DiskIOStats
  deriving Repr, DecidableEq

/-- `get_disk_info` (lines 144-182): partitions whose `disk_usage` raised
`PermissionError`/`FileNotFoundError` are skipped; when
`disk_io_counters()` is not `None`, rates are computed against
`_prev_disk_io` and `_prev_sample_ts`, and only `_prev_disk_io` is
replaced (the timestamp is left to `get_network_info`). -/
def get_disk_info (s : MonitorState) (now : ℚ)
    (partitions : List PartitionEntry) (io : Option DiskIO) :
    DiskReport × MonitorState :=
  let disk_info := partitions.filterMap fun p =>
    match p.usage with
    | .ok u => some (mkPartitionRecord p u)
    | .permissionError => none
    | .fileNotFoundError => none
  match io with
  | none => ({ partitions := disk_info, io_stats := none }, s)
  | some io =>
    let dt := max (now - s.prev_sample_ts) epsilon
    let read_rate_mib_s := (io.read_bytes - s.prev_disk_io.read_bytes) / 1024 ^ 2 / dt
    let write_rate_mib_s := (io.write_bytes - s.prev_disk_io.write_bytes) / 1024 ^ 2 / dt
    ({ partitions := disk_info
       io_stats := some
         { read_mib := round2 (io.read_bytes / 1024 ^ 2)
           write_mib := round2 (io.write_bytes / 1024 ^ 2)
           read_rate_mib_s := round2 read_rate_mib_s
           write_rate_mib_s := round2 write_rate_mib_s
           read_count := io.read_count
           write_count := io.write_count } },
     { s with prev_disk_io := io })

/-- Result of `psutil.sensors_battery()` when a battery is present. -/
structure BatteryRaw where
  percent : ℚ
  power_plugged : Bool
  secsleft : ℤ
  deriving Repr, DecidableEq

/-- The psutil constant `POWER_TIME_UNLIMITED`. -/
def POWER_TIME_UNLIMITED : ℤ := -2

structure BatteryInfo where
  percent : ℚ
  plugged_in : Bool
  time_left_minutes : Option ℤ
  deriving Repr, DecidableEq

/-- `get_battery_info` (lines 205-214): `None` when no battery; `//` is
Python floor division. -/
def get_battery_info (battery : Option BatteryRaw) : Option BatteryInfo :=
  battery.map fun b =>
    { percent := b.percent
      plugged_in := b.power_plugged
      time_left_minutes :=
        if b.secsleft ≠ POWER_TIME_UNLIMITED then some (Int.fdiv b.secsleft 60)
        else none }

/-- What the `subprocess.run(['sudo', '-n', 'powermetrics', ...])` call did:
exit status 0 with the parsed `CPU die temperature` (or `none` when no line
parsed), a non-zero exit status, or one of the caught exceptions
(`TimeoutExpired` on the 3-second timeout, `FileNotFoundError` for a
missing binary, `CalledProcessError`). -/
inductive ProbeResult where
  | success (temps : Temps)
  | nonzeroExit
  | timeoutExpired
  | fileNotFound
  | calledProcessError
  deriving Repr, DecidableEq

/-- `get_temperature_info` (lines 216-244). The extra `Bool` records
whether the subprocess was invoked on this call. Only the exit-0 branch
stores `_last_temp`/`_last_temp_ts`; the exception handler and the
non-zero-exit fallthrough return `None` without touching the cache. -/
def get_temperature_info (s : MonitorState) (now : ℚ) (probe : ProbeResult) :
    Temps × MonitorState × Bool :=
  if s.enable_temps = false then (none, s, false)
  else if now - s.last_temp_ts < s.temp_refresh_seconds ∧ s.last_temp ≠ none then
    (s.last_temp, s, false)
  else
    match probe with
    | .success temps =>
        (temps, { s with last_temp := temps, last_temp_ts := now }, true)
    | .nonzeroExit => (none, s, true)
    | .timeoutExpired => (none, s, true)
    | .fileNotFound => (none, s, true)
    | .calledProcessError => (none, s, true)

/-- The `proc.info` dict read inside `get_top_processes`; psutil may hand
back `None` for the percent fields (the source applies `or 0.0`). -/
structure ProcInfo where
  pid : ℕ
  name : String
  cpu_percent : Option ℚ
  memory_percent : Option ℚ
  username : String
  deriving Repr, DecidableEq

/-- One step of the `process_iter` loop: a readable process, or one that
raised `NoSuchProcess`/`AccessDenied`/`ZombieProcess` when accessed. -/
inductive ProcEntry where
  | ok (p : ProcInfo)
  | gone
  deriving Repr, DecidableEq

/-- One element of the `processes` list built by `get_top_processes`. -/
structure ProcRecord where
  pid : ℕ
  name : String
  cpu_percent : ℚ
  memory_percent : ℚ
  username : String
  deriving Repr, DecidableEq

def mkProcRecord (p : ProcInfo) : ProcRecord :=
  { pid := p.pid
    name := p.name
    cpu_percent := p.cpu_percent.getD 0
    memory_percent := round2 (p.memory_percent.getD 0)
    username := p.username }

/-- The `processes` accumulation loop (lines 259-273): vanished or
inaccessible processes are skipped with `continue`. -/
def collect_processes (table : List ProcEntry) : List ProcRecord :=
  table.filterMap fun e =>
    match e with
    | .ok p => some (mkProcRecord p)
    | .gone => none

/-- Stable insertion for a descending sort by `key`, matching the
stability guarantee of Python `list.sort(key=..., reverse=True)`: an
element is placed before the first element whose key is not larger, so
equal keys keep their original relative order. -/
def insertDesc {α : Type} (key : α → ℚ) (x : α) : List α → List α
  | [] => [x]
  | y :: ys => if key y ≤ key x then x :: y :: ys else y :: insertDesc key x ys

/-- Stable descending sort by `key` (Python `list.sort(key=...,
reverse=True)`). -/
def sortDesc {α : Type} (key : α → ℚ) : List α → List α
  | [] => []
  | x :: xs => insertDesc key x (sortDesc key xs)

/-- `get_top_processes` (lines 246-282). `tableIfPrimed` is what
`process_iter` yields when the priming pass (throwaway `cpu_percent(None)`
reads plus the 0.2 s sleep) ran on this call, `tableIfNot` what it yields
otherwise. The extra `Bool` records whether the priming pass ran. The
priming guard tests the raw `sort_by` before the unrecognized-key
fallback at line 275. -/
def get_top_processes (s : MonitorState) (now : ℚ)
    (tableIfPrimed tableIfNot : List ProcEntry) (num : ℕ) (sort_by : String) :
    List ProcRecord × MonitorState × Bool :=
  let doPrime := sort_by == "cpu" && decide (5 < now - s.proc_prime_ts)
  let s' := if doPrime then { s with proc_prime_ts := now } else s
  let table := if doPrime then tableIfPrimed else tableIfNot
  let processes := collect_processes table
  let sb := if sort_by = "cpu" ∨ sort_by = "memory" then sort_by else "cpu"
  let sorted :=
    if sb = "cpu" then sortDesc (fun r => r.cpu_percent) processes
    else sortDesc (fun r => r.memory_percent) processes
  (sorted.take num, s', doPrime)

/-- `self.history_size` (line 53). -/
def history_size : ℕ := 20

/-- One append to a `collections.deque(maxlen=k)`: when the deque is full,
the leftmost (oldest) element is dropped. -/
def dequePush (k : ℕ) (l : List ℚ) (v : ℚ) : List ℚ :=
  (l ++ [v]).drop ((l ++ [v]).length - k)

/-- Appending a whole sequence of samples to a history deque. -/
def pushAll (k : ℕ) (l : List ℚ) (vs : List ℚ) : List ℚ :=
  vs.foldl (dequePush k) l

/-- Result of `psutil.cpu_freq()` when not `None`. -/
structure CpuFreq where
  current : ℚ
  max : ℚ
  deriving Repr, DecidableEq

structure CpuInfo where
  overall_usage : ℚ
  per_core_usage : List ℚ
  core_count : Option ℕ
  thread_count : Option ℕ
  frequency_mhz : Option ℚ
  max_frequency_mhz : Option ℚ
  deriving Repr, DecidableEq

/-- Results of `psutil.virtual_memory()`. -/
structure MemGauges where
  total : ℚ
  available : ℚ
  used : ℚ
  percent : ℚ
  deriving Repr, DecidableEq

/-- Results of `psutil.swap_memory()`. -/
structure SwapGauges where
  total : ℚ
  used : ℚ
  percent : ℚ
  deriving Repr, DecidableEq

structure MemoryInfo where
  total_gb : ℚ
  available_gb : ℚ
  used_gb : ℚ
  percent : ℚ
  swap_total_gb : ℚ
  swap_used_gb : ℚ
  swap_percent : ℚ
  deriving Repr, DecidableEq

/-- `get_memory_info` (lines 129-142). -/
def get_memory_info (mem : MemGauges) (swap : SwapGauges) : MemoryInfo :=
  { total_gb := round2 (mem.total / 1024 ^ 3)
    available_gb := round2 (mem.available / 1024 ^ 3)
    used_gb := round2 (mem.used / 1024 ^ 3)
    percent := mem.percent
    swap_total_gb := round2 (swap.total / 1024 ^ 3)
    swap_used_gb := round2 (swap.used / 1024 ^ 3)
    swap_percent := swap.percent }

structure UptimeInfo where
  boot_time : ℚ
  uptime_days : ℤ
  uptime_hours : ℤ
  uptime_minutes : ℤ
  deriving Repr, DecidableEq

/-- `get_system_uptime` (lines 284-298), with `boot_time` kept numeric in
place of the `strftime` string. -/
def get_system_uptime (now boot_time : ℚ) : UptimeInfo :=
  let uptime_seconds := now - boot_time
  { boot_time := boot_time
    uptime_days := ⌊uptime_seconds / 86400⌋
    uptime_hours := ⌊(uptime_seconds - 86400 * ⌊uptime_seconds / 86400⌋) / 3600⌋
    uptime_minutes := ⌊(uptime_seconds - 3600 * ⌊uptime_seconds / 3600⌋) / 60⌋ }

/-- Everything the OS hands the sampler during one tick: the psutil reads
and the probe outcome, plus the tick time standing in for `time.time()`. -/
structure World where
  now : ℚ
  boot_time : ℚ
  cpu_overall : ℚ
  cpu_per_core : List ℚ
  core_count : Option ℕ
  thread_count : Option ℕ
  cpu_freq : Option CpuFreq
  mem : MemGauges
  swap : SwapGauges
  partitions : List PartitionEntry
  disk_io : Option DiskIO
  net_io : NetIO
  battery : Option BatteryRaw
  probe : ProbeResult
  table_primed : List ProcEntry
  table_unprimed : List ProcEntry
  deriving Repr

/-- `get_cpu_info` (lines 115-127). -/
def get_cpu_info (w : World) : CpuInfo :=
  { overall_usage := w.cpu_overall
    per_core_usage := w.cpu_per_core
    core_count := w.core_count
    thread_count := w.thread_count
    frequency_mhz := w.cpu_freq.map (fun f => f.current)
    max_frequency_mhz := w.cpu_freq.map (fun f => f.max) }

/-- The dict built by `get_json_report`. `battery` is `none` when the
`include_battery` flag omitted the key, `some b` when the key is present
with `get_battery_info`'s (possibly `None`) value; likewise
`top_processes`. -/
structure Report where
  uptime : UptimeInfo
  cpu : CpuInfo
  memory : MemoryInfo
  disk : DiskReport
  network : NetworkInfo
  temperature : Temps
  battery : Option (Option BatteryInfo)
  top_processes : Option (List ProcRecord)
  deriving Repr

/-- `get_json_report` (lines 522-537): one sampling tick. Sub-reports are
gathered in the source's evaluation order (uptime, cpu, memory, disk,
network, temperature, battery, top processes), threading the monitor
state through the stateful calls. -/
def get_json_report (s : MonitorState) (w : World)
    (include_processes : Bool) (top_n : ℕ) (sort_by : String)
    (include_battery : Bool) : Report × MonitorState :=
  let uptime := get_system_uptime w.now w.boot_time
  let cpu := get_cpu_info w
  let memory := get_memory_info w.mem w.swap
  let dres := get_disk_info s w.now w.partitions w.disk_io
  let nres := get_network_info dres.2 w.net_io w.now
  let tres := get_temperature_info nres.2 w.now w.probe
  let battery := if include_battery then some (get_battery_info w.battery) else none
  let pres := get_top_processes tres.2.1 w.now w.table_primed w.table_unprimed
    top_n sort_by
  ({ uptime := uptime, cpu := cpu, memory := memory, disk := dres.1
     network := nres.1, temperature := tres.1, battery := battery
     top_processes := if include_processes then some pres.1 else none },
   if include_processes then pres.2.1 else tres.2.1)

/-! ## Arithmetic lemmas -/

lemma epsilon_pos : (0 : ℚ) < epsilon := by norm_num [epsilon]

lemma rate_dt_pos (prev_ts t : ℚ) : 0 < max (t - prev_ts) epsilon :=
  lt_of_lt_of_le epsilon_pos (le_max_right _ _)

lemma roundQ_nonpos {q : ℚ} (h : q ≤ 0) : roundQ q ≤ 0 := by
  have hf : ⌊q⌋ ≤ 0 := by
    have := Int.floor_le_floor h
    simpa using this
  unfold roundQ
  split_ifs with h1 h2 h3
  · exact hf
  · have hlt : (⌊q⌋ : ℚ) < q := by linarith
    have : ⌊q⌋ < 0 := by
      have hq0 : (⌊q⌋ : ℚ) < 0 := lt_of_lt_of_le hlt h
      exact_mod_cast hq0
    omega
  · exact hf
  · have heq : q - ⌊q⌋ = 1/2 := le_antisymm (not_lt.mp h2) (not_lt.mp h1)
    have hlt : (⌊q⌋ : ℚ) < q := by linarith
    have : ⌊q⌋ < 0 := by
      have hq0 : (⌊q⌋ : ℚ) < 0 := lt_of_lt_of_le hlt h
      exact_mod_cast hq0
    omega

lemma round2_nonpos {q : ℚ} (h : q ≤ 0) : round2 q ≤ 0 := by
  have h1 : q * 100 ≤ 0 := by nlinarith
  have h2 : roundQ (q * 100) ≤ 0 := roundQ_nonpos h1
  have h3 : ((roundQ (q * 100) : ℤ) : ℚ) ≤ 0 := by exact_mod_cast h2
  unfold round2
  nlinarith

/-! ## Claim C1 -/

/-- Concrete monitor state for the counter-reset scenario: previous
network snapshot had 3 MiB sent, previous sample time 0. -/
def sReset : MonitorState :=
  { prev_net_io := { bytes_sent := 3 * 1024 ^ 2, bytes_recv := 0,
                     packets_sent := 0, packets_recv := 0 }
    prev_disk_io := { read_bytes := 0, write_bytes := 0,
                      read_count := 0, write_count := 0 }
    prev_sample_ts := 0
    last_temp := none
    last_temp_ts := 0
    enable_temps := false
    temp_refresh_seconds := 5
    proc_prime_ts := 0 }

/-- Current network counters after a simulated reset: 1 MiB sent. -/
def netReset : NetIO :=
  { bytes_sent := 1024 ^ 2, bytes_recv := 0, packets_sent := 0, packets_recv := 0 }

/-- Monitor state whose previous disk snapshot read 3 MiB at time 0. -/
def sResetD : MonitorState :=
  { sReset with prev_disk_io :=
      { read_bytes := 3 * 1024 ^ 2, write_bytes := 0,
        read_count := 0, write_count := 0 } }

/-- Current disk counters after a simulated reset: 1 MiB read. -/
def ioReset : DiskIO :=
  { read_bytes := 1024 ^ 2, write_bytes := 0, read_count := 0, write_count := 0 }

/-- Claim C1 as stated is false for both counter families: with the
previous `bytes_sent` counter at 3 MiB and the new reading at 1 MiB one
second later, `get_network_info` reports a send rate of −2 MiB/s, not
`0`; and with the previous `read_bytes` counter at 3 MiB and the new
reading at 1 MiB one second later, `get_disk_info` reports a read rate of
−2 MiB/s, not `0`. -/
theorem reset_rate_is_negative_cex :
    ((get_network_info sReset netReset 1).1.send_rate_mib_s = -2 ∧
      ¬ (get_network_info sReset netReset 1).1.send_rate_mib_s = 0) ∧
    (∃ st, (get_disk_info sResetD 1 [] (some ioReset)).1.io_stats = some st ∧
      st.read_rate_mib_s = -2 ∧ ¬ st.read_rate_mib_s = 0) := by
  have hmax : max ((1 : ℚ) - 0) epsilon = 1 := by
    rw [max_eq_left] <;> norm_num [epsilon]
  constructor
  · have h : (get_network_info sReset netReset 1).1.send_rate_mib_s = -2 := by
      simp only [get_network_info, sReset, netReset, hmax]
      norm_num [round2, roundQ]
    rw [h]
    norm_num
  · have h : round2 ((ioReset.read_bytes - sResetD.prev_disk_io.read_bytes) /
        1024 ^ 2 / max ((1 : ℚ) - sResetD.prev_sample_ts) epsilon) = -2 := by
      simp only [sResetD, sReset, ioReset, hmax]
      norm_num [round2, roundQ]
    refine ⟨_, rfl, h, ?_⟩
    rw [h]
    norm_num

/-- Claim C1 amended: neither rate computation clamps a decreased counter
to zero — `get_network_info` and `get_disk_info` apply the same
`delta / dt` formula unconditionally. Network family: a decreased sent
counter yields a strictly negative raw rate whose rounding is the
reported field (hence ≤ 0), while a non-decreased recv counter computes
by the identical formula. Disk family: a decreased read counter likewise
yields a strictly negative raw rate, reported as its rounding (hence
≤ 0), while a non-decreased write counter computes by the identical
formula. -/
theorem rate_on_decrease_not_clamped (s : MonitorState) (net : NetIO) (now : ℚ)
    (hdec : net.bytes_sent < s.prev_net_io.bytes_sent) :
    ((net.bytes_sent - s.prev_net_io.bytes_sent) /
        max (now - s.prev_sample_ts) epsilon < 0 ∧
      (get_network_info s net now).1.send_rate_mib_s =
        round2 ((net.bytes_sent - s.prev_net_io.bytes_sent) /
          max (now - s.prev_sample_ts) epsilon / 1024 ^ 2) ∧
      (get_network_info s net now).1.send_rate_mib_s ≤ 0 ∧
      (s.prev_net_io.bytes_recv ≤ net.bytes_recv →
        (get_network_info s net now).1.recv_rate_mib_s =
          round2 ((net.bytes_recv - s.prev_net_io.bytes_recv) /
            max (now - s.prev_sample_ts) epsilon / 1024 ^ 2))) ∧
    (∀ (partitions : List PartitionEntry) (io : DiskIO),
      io.read_bytes < s.prev_disk_io.read_bytes →
      (io.read_bytes - s.prev_disk_io.read_bytes) / 1024 ^ 2 /
          max (now - s.prev_sample_ts) epsilon < 0 ∧
      ∃ st, (get_disk_info s now partitions (some io)).1.io_stats = some st ∧
        st.read_rate_mib_s =
          round2 ((io.read_bytes - s.prev_disk_io.read_bytes) / 1024 ^ 2 /
            max (now - s.prev_sample_ts) epsilon) ∧
        st.read_rate_mib_s ≤ 0 ∧
        (s.prev_disk_io.write_bytes ≤ io.write_bytes →
          st.write_rate_mib_s =
            round2 ((io.write_bytes - s.prev_disk_io.write_bytes) / 1024 ^ 2 /
              max (now - s.prev_sample_ts) epsilon))) := by
  have hdt : 0 < max (now - s.prev_sample_ts) epsilon := rate_dt_pos _ _
  constructor
  · have hneg : (net.bytes_sent - s.prev_net_io.bytes_sent) /
        max (now - s.prev_sample_ts) epsilon < 0 :=
      div_neg_of_neg_of_pos (by linarith) hdt
    refine ⟨hneg, rfl, ?_, fun _ => rfl⟩
    have hsc : (net.bytes_sent - s.prev_net_io.bytes_sent) /
        max (now - s.prev_sample_ts) epsilon / 1024 ^ 2 ≤ 0 := by
      apply div_nonpos_of_nonpos_of_nonneg (le_of_lt hneg)
      norm_num
    exact round2_nonpos hsc
  · intro partitions io hio
    have hneg1 : (io.read_bytes - s.prev_disk_io.read_bytes) / 1024 ^ 2 < 0 :=
      div_neg_of_neg_of_pos (by linarith) (by norm_num)
    have hneg : (io.read_bytes - s.prev_disk_io.read_bytes) / 1024 ^ 2 /
        max (now - s.prev_sample_ts) epsilon < 0 :=
      div_neg_of_neg_of_pos hneg1 hdt
    exact ⟨hneg, _, rfl, rfl, round2_nonpos (le_of_lt hneg), fun _ => rfl⟩

/-- Witness for `rate_on_decrease_not_clamped` at the concrete reset
scenario. -/
theorem rate_on_decrease_not_clamped_witness :
    netReset.bytes_sent < sReset.prev_net_io.bytes_sent ∧
    (((netReset.bytes_sent - sReset.prev_net_io.bytes_sent) /
          max ((1 : ℚ) - sReset.prev_sample_ts) epsilon < 0 ∧
        (get_network_info sReset netReset 1).1.send_rate_mib_s =
          round2 ((netReset.bytes_sent - sReset.prev_net_io.bytes_sent) /
            max ((1 : ℚ) - sReset.prev_sample_ts) epsilon / 1024 ^ 2) ∧
        (get_network_info sReset netReset 1).1.send_rate_mib_s ≤ 0 ∧
        (sReset.prev_net_io.bytes_recv ≤ netReset.bytes_recv →
          (get_network_info sReset netReset 1).1.recv_rate_mib_s =
            round2 ((netReset.bytes_recv - sReset.prev_net_io.bytes_recv) /
              max ((1 : ℚ) - sReset.prev_sample_ts) epsilon / 1024 ^ 2))) ∧
      (∀ (partitions : List PartitionEntry) (io : DiskIO),
        io.read_bytes < sReset.prev_disk_io.read_bytes →
        (io.read_bytes - sReset.prev_disk_io.read_bytes) / 1024 ^ 2 /
            max ((1 : ℚ) - sReset.prev_sample_ts) epsilon < 0 ∧
        ∃ st, (get_disk_info sReset 1 partitions (some io)).1.io_stats = some st ∧
          st.read_rate_mib_s =
            round2 ((io.read_bytes - sReset.prev_disk_io.read_bytes) / 1024 ^ 2 /
              max ((1 : ℚ) - sReset.prev_sample_ts) epsilon) ∧
          st.read_rate_mib_s ≤ 0 ∧
          (sReset.prev_disk_io.write_bytes ≤ io.write_bytes →
            st.write_rate_mib_s =
              round2 ((io.write_bytes - sReset.prev_disk_io.write_bytes) / 1024 ^ 2 /
                max ((1 : ℚ) - sReset.prev_sample_ts) epsilon)))) :=
  ⟨by norm_num [netReset, sReset],
   rate_on_decrease_not_clamped sReset netReset 1 (by norm_num [netReset, sReset])⟩

/-! ## Claim C4 -/

/-- State effect of `get_disk_info`: only `_prev_disk_io` is replaced. -/
lemma get_disk_info_state (s : MonitorState) (now : ℚ)
    (partitions : List PartitionEntry) (io : Option DiskIO) :
    (get_disk_info s now partitions io).2 =
      match io with
      | none => s
      | some d => { s with prev_disk_io := d } := by
  cases io <;> rfl

/-- State effect of `get_network_info`: baseline counters and the shared
sample timestamp are both replaced. -/
lemma get_network_info_state (s : MonitorState) (net : NetIO) (now : ℚ) :
    (get_network_info s net now).2 =
      { s with prev_net_io := net, prev_sample_ts := now } := rfl

/-- Claim C4 as stated is false for the disk tracker: updating disk I/O at
time 5 from a state whose stored sample timestamp is 0 leaves the stored
timestamp at 0 instead of replacing it with 5. -/
theorem disk_update_keeps_timestamp_cex :
    ((get_disk_info sReset 5 []
        (some { read_bytes := 7, write_bytes := 7, read_count := 1, write_count := 1 })).2).prev_sample_ts
      = 0 ∧ (0 : ℚ) ≠ 5 := by
  refine ⟨rfl, by norm_num⟩

/-- Claim C4 amended: the network update replaces both the stored counters
and the shared observed-at timestamp as its final state change; the disk
update replaces only its stored counters — the observed-at timestamp it
divides by is shared with the network tracker and is updated only by the
network update ( `get_disk_info` with no I/O counters changes nothing). -/
theorem baseline_replacement_after_update (s : MonitorState) (now : ℚ)
    (partitions : List PartitionEntry) (io : DiskIO) (net : NetIO) :
    (get_disk_info s now partitions (some io)).2 = { s with prev_disk_io := io } ∧
    (get_disk_info s now partitions none).2 = s ∧
    (get_network_info s net now).2 =
      { s with prev_net_io := net, prev_sample_ts := now } := by
  exact ⟨rfl, rfl, rfl⟩

/-! ## Claim C7 -/

/-- Claim C7: under a non-decreasing counter and positive elapsed time the
reported rate field is exactly the rounded, MiB-scaled
`delta / max(dt, 1e-6)`; when `dt ≥ 1e-6` the floor is inert and the rate
is exactly `delta / dt`; and the denominator is positive for every
observation time, including times at or before the stored timestamp, so
no division fault can occur. The disk read rate uses the same guarded
denominator. -/
theorem rate_formula_and_positive_dt (s : MonitorState) (net : NetIO) (now : ℚ)
    (hmono : s.prev_net_io.bytes_sent ≤ net.bytes_sent)
    (hdt : 0 < now - s.prev_sample_ts) :
    (∀ t : ℚ, 0 < max (t - s.prev_sample_ts) epsilon) ∧
    (get_network_info s net now).1.send_rate_mib_s =
      round2 ((net.bytes_sent - s.prev_net_io.bytes_sent) /
        max (now - s.prev_sample_ts) epsilon / 1024 ^ 2) ∧
    (epsilon ≤ now - s.prev_sample_ts →
      (get_network_info s net now).1.send_rate_mib_s =
        round2 ((net.bytes_sent - s.prev_net_io.bytes_sent) /
          (now - s.prev_sample_ts) / 1024 ^ 2)) ∧
    (∀ (partitions : List PartitionEntry) (io : DiskIO),
      ∃ st, (get_disk_info s now partitions (some io)).1.io_stats = some st ∧
        st.read_rate_mib_s =
          round2 ((io.read_bytes - s.prev_disk_io.read_bytes) / 1024 ^ 2 /
            max (now - s.prev_sample_ts) epsilon)) := by
  refine ⟨fun t => rate_dt_pos _ _, rfl, ?_, ?_⟩
  · intro hle
    have : max (now - s.prev_sample_ts) epsilon = now - s.prev_sample_ts :=
      max_eq_left hle
    simp only [get_network_info, this]
  · intro partitions io
    exact ⟨_, rfl, rfl⟩

/-- Witness for `rate_formula_and_positive_dt`: previous sent counter 0 at
time 0, current `1024²` at time 1. -/
theorem rate_formula_and_positive_dt_witness :
    (sReset.prev_net_io.bytes_sent ≤
        ({ netReset with bytes_sent := 4 * 1024 ^ 2 } : NetIO).bytes_sent ∧
      (0 : ℚ) < 1 - sReset.prev_sample_ts) ∧
    ((∀ t : ℚ, 0 < max (t - sReset.prev_sample_ts) epsilon) ∧
      (get_network_info sReset
        { netReset with bytes_sent := 4 * 1024 ^ 2 } 1).1.send_rate_mib_s =
        round2 (({ netReset with bytes_sent := 4 * 1024 ^ 2 }.bytes_sent -
            sReset.prev_net_io.bytes_sent) /
          max ((1 : ℚ) - sReset.prev_sample_ts) epsilon / 1024 ^ 2) ∧
      (epsilon ≤ 1 - sReset.prev_sample_ts →
        (get_network_info sReset
          { netReset with bytes_sent := 4 * 1024 ^ 2 } 1).1.send_rate_mib_s =
          round2 (({ netReset with bytes_sent := 4 * 1024 ^ 2 }.bytes_sent -
              sReset.prev_net_io.bytes_sent) /
            ((1 : ℚ) - sReset.prev_sample_ts) / 1024 ^ 2)) ∧
      (∀ (partitions : List PartitionEntry) (io : DiskIO),
        ∃ st, (get_disk_info sReset 1 partitions (some io)).1.io_stats = some st ∧
          st.read_rate_mib_s =
            round2 ((io.read_bytes - sReset.prev_disk_io.read_bytes) / 1024 ^ 2 /
              max ((1 : ℚ) - sReset.prev_sample_ts) epsilon))) :=
  ⟨⟨by norm_num [netReset, sReset], by norm_num [sReset]⟩,
   rate_formula_and_positive_dt sReset { netReset with bytes_sent := 4 * 1024 ^ 2 } 1
     (by norm_num [netReset, sReset]) (by norm_num [sReset])⟩

/-! ## Claims C2 and C5 -/

/-- Probe outcomes the source treats as failures (as opposed to exit 0). -/
def ProbeResult.isFailure : ProbeResult → Bool
  | .success _ => false
  | _ => true

/-- Behaviour of `get_temperature_info` on a cache miss (temps enabled and
no cached non-`None` value): the probe is always invoked, and only the
exit-0 branch stores anything. -/
lemma get_temperature_info_miss (s : MonitorState) (now : ℚ) (probe : ProbeResult)
    (h_en : s.enable_temps = true) (h_none : s.last_temp = none) :
    get_temperature_info s now probe =
      match probe with
      | .success temps => (temps, { s with last_temp := temps, last_temp_ts := now }, true)
      | .nonzeroExit => (none, s, true)
      | .timeoutExpired => (none, s, true)
      | .fileNotFound => (none, s, true)
      | .calledProcessError => (none, s, true) := by
  unfold get_temperature_info
  simp [h_en, h_none]

/-- Concrete state with temperatures enabled and nothing cached. -/
def sTempNone : MonitorState := { sReset with enable_temps := true }

/-- Claim C2 as stated is false: after the probe times out at time 100,
the fetch timestamp is not updated (the whole state is unchanged), and the
very next call — well within the 5-second TTL — invokes the probe again. -/
theorem timeout_not_cached_cex :
    (get_temperature_info sTempNone 100 ProbeResult.timeoutExpired).2.1 = sTempNone ∧
    sTempNone.last_temp_ts ≠ 100 ∧
    (get_temperature_info sTempNone 101 ProbeResult.timeoutExpired).2.2 = true := by
  refine ⟨?_, by norm_num [sTempNone, sReset], ?_⟩ <;>
    simp [get_temperature_info_miss, sTempNone, sReset]

/-- Claim C2 amended: a probe failure is never served from the cache. On
timeout, non-zero exit, or a missing binary nothing is stored at all (the
cache fields keep their old values); on exit 0 with unparseable output the
`None` is stored together with the fetch timestamp, but because the cache
guard also requires a non-`None` cached value, every call made while the
cached value is `None` invokes the probe again, TTL notwithstanding. -/
theorem failed_probe_is_retried (s : MonitorState)
    (h_en : s.enable_temps = true) (h_none : s.last_temp = none) :
    (∀ (now : ℚ) (p : ProbeResult), p.isFailure = true →
      get_temperature_info s now p = (none, s, true)) ∧
    (∀ now : ℚ, get_temperature_info s now (ProbeResult.success none) =
      (none, { s with last_temp := none, last_temp_ts := now }, true)) ∧
    (∀ (now : ℚ) (p : ProbeResult), (get_temperature_info s now p).2.2 = true) := by
  refine ⟨fun now p hp => ?_, fun now => ?_, fun now p => ?_⟩
  · rw [get_temperature_info_miss s now p h_en h_none]
    cases p with
    | success temps => simp [ProbeResult.isFailure] at hp
    | _ => rfl
  · rw [get_temperature_info_miss s now _ h_en h_none]
  · rw [get_temperature_info_miss s now p h_en h_none]
    cases p <;> rfl

/-- Witness for `failed_probe_is_retried` at the concrete state. -/
theorem failed_probe_is_retried_witness :
    (sTempNone.enable_temps = true ∧ sTempNone.last_temp = none) ∧
    ((∀ (now : ℚ) (p : ProbeResult), p.isFailure = true →
        get_temperature_info sTempNone now p = (none, sTempNone, true)) ∧
      (∀ now : ℚ, get_temperature_info sTempNone now (ProbeResult.success none) =
        (none, { sTempNone with last_temp := none, last_temp_ts := now }, true)) ∧
      (∀ (now : ℚ) (p : ProbeResult),
        (get_temperature_info sTempNone now p).2.2 = true)) :=
  ⟨⟨rfl, rfl⟩, failed_probe_is_retried sTempNone rfl rfl⟩

/-- Claim C5 as stated is false: two calls at the same time 100, each with
the probe exiting 0 but yielding no parseable temperature, both invoke the
probe — the first stores `None`, and the `None` guard makes the second
call miss the cache even though it is inside the TTL window. -/
theorem ttl_double_refresh_cex :
    (get_temperature_info sTempNone 100 (ProbeResult.success none)).2.2 = true ∧
    (get_temperature_info
      (get_temperature_info sTempNone 100 (ProbeResult.success none)).2.1
      100 (ProbeResult.success none)).2.2 = true := by
  constructor <;> simp [get_temperature_info_miss, sTempNone, sReset]

/-- Claim C5 amended: when the refresh yields a parsed (non-`None`) value,
a second call at the same `now` within a positive TTL is served from the
cache without invoking the probe; and any call made once `ttlSeconds` have
elapsed since the stored fetch timestamp invokes the probe again. The
at-most-once guarantee does not extend to refreshes that yield `None`. -/
theorem ttl_refresh_behaviour (s : MonitorState) (now t : ℚ)
    (h_en : s.enable_temps = true) (h_none : s.last_temp = none)
    (h_ttl : 0 < s.temp_refresh_seconds) :
    (get_temperature_info s now (ProbeResult.success (some t))).2.2 = true ∧
    (∀ p2 : ProbeResult,
      get_temperature_info
        (get_temperature_info s now (ProbeResult.success (some t))).2.1 now p2 =
      (some t, (get_temperature_info s now (ProbeResult.success (some t))).2.1, false)) ∧
    (∀ (s2 : MonitorState) (now2 : ℚ) (p : ProbeResult),
      s2.enable_temps = true → s2.temp_refresh_seconds ≤ now2 - s2.last_temp_ts →
      (get_temperature_info s2 now2 p).2.2 = true) := by
  rw [get_temperature_info_miss s now _ h_en h_none]
  refine ⟨rfl, fun p2 => ?_, fun s2 now2 p h2 hexp => ?_⟩
  · show get_temperature_info { s with last_temp := some t, last_temp_ts := now } now p2 = _
    unfold get_temperature_info
    simp [h_en, h_ttl]
  · unfold get_temperature_info
    have hguard : ¬ (now2 - s2.last_temp_ts < s2.temp_refresh_seconds ∧
        s2.last_temp ≠ none) := by
      rintro ⟨hlt, -⟩
      linarith
    rw [h2]
    simp only [hguard]
    simp
    cases p <;> simp

/-- Witness for `ttl_refresh_behaviour` at the concrete state with a
probe reading of 55 °C. -/
theorem ttl_refresh_behaviour_witness :
    (sTempNone.enable_temps = true ∧ sTempNone.last_temp = none ∧
      (0 : ℚ) < sTempNone.temp_refresh_seconds) ∧
    ((get_temperature_info sTempNone 100 (ProbeResult.success (some 55))).2.2 = true ∧
      (∀ p2 : ProbeResult,
        get_temperature_info
          (get_temperature_info sTempNone 100 (ProbeResult.success (some 55))).2.1
          100 p2 =
        (some 55,
          (get_temperature_info sTempNone 100 (ProbeResult.success (some 55))).2.1,
          false)) ∧
      (∀ (s2 : MonitorState) (now2 : ℚ) (p : ProbeResult),
        s2.enable_temps = true → s2.temp_refresh_seconds ≤ now2 - s2.last_temp_ts →
        (get_temperature_info s2 now2 p).2.2 = true)) :=
  ⟨⟨rfl, rfl, by norm_num [sTempNone, sReset]⟩,
   ttl_refresh_behaviour sTempNone 100 55 rfl rfl (by norm_num [sTempNone, sReset])⟩

/-! ## Sorting lemmas -/

lemma insertDesc_perm {α : Type} (key : α → ℚ) (x : α) :
    ∀ l : List α, (insertDesc key x l).Perm (x :: l)
  | [] => List.Perm.refl _
  | y :: ys => by
      unfold insertDesc
      split
      · exact List.Perm.refl _
      · exact ((insertDesc_perm key x ys).cons y).trans (List.Perm.swap x y ys)

lemma sortDesc_perm {α : Type} (key : α → ℚ) :
    ∀ l : List α, (sortDesc key l).Perm l
  | [] => List.Perm.refl _
  | x :: xs =>
      (insertDesc_perm key x (sortDesc key xs)).trans ((sortDesc_perm key xs).cons x)

lemma mem_insertDesc {α : Type} {key : α → ℚ} {x a : α} {l : List α} :
    a ∈ insertDesc key x l ↔ a = x ∨ a ∈ l := by
  rw [(insertDesc_perm key x l).mem_iff, List.mem_cons]

lemma insertDesc_pairwise {α : Type} {key : α → ℚ} {x : α} {l : List α}
    (hl : l.Pairwise (fun a b => key b ≤ key a)) :
    (insertDesc key x l).Pairwise (fun a b => key b ≤ key a) := by
  induction l with
  | nil => simp [insertDesc]
  | cons y ys ih =>
      rcases List.pairwise_cons.mp hl with ⟨hy, hys⟩
      unfold insertDesc
      split
      case isTrue h =>
        refine List.pairwise_cons.mpr ⟨?_, hl⟩
        intro b hb
        rcases List.mem_cons.mp hb with rfl | hb
        · exact h
        · exact le_trans (hy b hb) h
      case isFalse h =>
        refine List.pairwise_cons.mpr ⟨?_, ih hys⟩
        intro b hb
        rcases mem_insertDesc.mp hb with rfl | hb
        · exact le_of_lt (lt_of_not_le h)
        · exact hy b hb

lemma sortDesc_pairwise {α : Type} (key : α → ℚ) :
    ∀ l : List α, (sortDesc key l).Pairwise (fun a b => key b ≤ key a)
  | [] => List.Pairwise.nil
  | x :: xs => insertDesc_pairwise (sortDesc_pairwise key xs)

lemma insertDesc_filter_key {α : Type} (key : α → ℚ) (c : ℚ) (x : α) :
    ∀ l : List α,
      (insertDesc key x l).filter (fun a => decide (key a = c)) =
        ((x :: l).filter (fun a => decide (key a = c)))
  | [] => rfl
  | y :: ys => by
      unfold insertDesc
      split
      case isTrue h => rfl
      case isFalse h =>
        have hxy : key x < key y := lt_of_not_le h
        by_cases hx : key x = c
        · by_cases hy : key y = c
          · exact absurd (hy.trans hx.symm) (ne_of_gt hxy)
          · simp only [List.filter_cons, hx, hy, decide_eq_true_eq, decide_eq_false hy,
              if_false, decide_eq_true (by exact hx)]
            rw [insertDesc_filter_key key c x ys]
            simp [List.filter_cons, hx, hy]
        · by_cases hy : key y = c
          · simp only [List.filter_cons, decide_eq_false hx, if_false,
              decide_eq_true (by exact hy), if_true]
            rw [insertDesc_filter_key key c x ys]
            simp [List.filter_cons, hx, hy]
          · simp only [List.filter_cons, decide_eq_false hx, decide_eq_false hy, if_false]
            rw [insertDesc_filter_key key c x ys]
            simp [List.filter_cons, hx]

lemma sortDesc_filter_key {α : Type} (key : α → ℚ) (c : ℚ) :
    ∀ l : List α,
      (sortDesc key l).filter (fun a => decide (key a = c)) =
        l.filter (fun a => decide (key a = c))
  | [] => rfl
  | x :: xs => by
      unfold sortDesc
      rw [insertDesc_filter_key key c x (sortDesc key xs)]
      simp only [List.filter_cons]
      rw [sortDesc_filter_key key c xs]

/-! ## Claims C9, C10 and C6 -/

/-- With the recognized key `cpu` and the same process table either way,
the returned list is the first `num` of the stable descending
`cpu_percent` sort of the collected records. -/
lemma get_top_processes_cpu_list (s : MonitorState) (now : ℚ)
    (table : List ProcEntry) (num : ℕ) :
    (get_top_processes s now table table num "cpu").1 =
      (sortDesc (fun r => r.cpu_percent) (collect_processes table)).take num := by
  simp [get_top_processes]

/-- Claim C9: `get_top_processes` with `sort_by='cpu'` returns the first
`num` elements of the stable descending sort by `cpu_percent`: the result
is sorted descending, has length at most `num`, has pairwise-distinct pids
whenever the enumerated table has them, and the underlying sort is stable
— for each metric value, records with that value stay in enumeration
order. -/
theorem topn_cpu_sorted (s : MonitorState) (now : ℚ) (table : List ProcEntry)
    (num : ℕ)
    (h : ((collect_processes table).map (fun r => r.pid)).Nodup) :
    (get_top_processes s now table table num "cpu").1 =
      (sortDesc (fun r => r.cpu_percent) (collect_processes table)).take num ∧
    ((get_top_processes s now table table num "cpu").1).Pairwise
      (fun a b => b.cpu_percent ≤ a.cpu_percent) ∧
    ((get_top_processes s now table table num "cpu").1).length ≤ num ∧
    (((get_top_processes s now table table num "cpu").1).map (fun r => r.pid)).Nodup ∧
    (∀ c : ℚ,
      (sortDesc (fun r => r.cpu_percent) (collect_processes table)).filter
          (fun r => decide (r.cpu_percent = c)) =
        (collect_processes table).filter (fun r => decide (r.cpu_percent = c))) := by
  have heq := get_top_processes_cpu_list s now table num
  refine ⟨heq, ?_, ?_, ?_, fun c => sortDesc_filter_key _ c _⟩
  · rw [heq]
    exact List.Pairwise.sublist (List.take_sublist _ _) (sortDesc_pairwise _ _)
  · rw [heq]
    exact List.length_take_le _ _
  · rw [heq]
    have hperm :
        ((sortDesc (fun r => r.cpu_percent) (collect_processes table)).map
            (fun r => r.pid)).Perm
          ((collect_processes table).map (fun r => r.pid)) :=
      (sortDesc_perm _ _).map _
    have hnd := (hperm.nodup_iff).mpr h
    exact hnd.sublist ((List.take_sublist _ _).map _)

/-- Two concrete readable processes with distinct pids. -/
def pA : ProcInfo :=
  { pid := 1, name := "a", cpu_percent := some 50, memory_percent := some 1,
    username := "u" }

def pB : ProcInfo :=
  { pid := 2, name := "b", cpu_percent := some 7, memory_percent := some 3,
    username := "u" }

/-- Witness for `topn_cpu_sorted` on a two-process table. -/
theorem topn_cpu_sorted_witness :
    ((collect_processes [ProcEntry.ok pA, ProcEntry.ok pB]).map
        (fun r => r.pid)).Nodup ∧
    ((get_top_processes sReset 0 [ProcEntry.ok pA, ProcEntry.ok pB]
        [ProcEntry.ok pA, ProcEntry.ok pB] 1 "cpu").1 =
      (sortDesc (fun r => r.cpu_percent)
        (collect_processes [ProcEntry.ok pA, ProcEntry.ok pB])).take 1 ∧
    ((get_top_processes sReset 0 [ProcEntry.ok pA, ProcEntry.ok pB]
        [ProcEntry.ok pA, ProcEntry.ok pB] 1 "cpu").1).Pairwise
      (fun a b => b.cpu_percent ≤ a.cpu_percent) ∧
    ((get_top_processes sReset 0 [ProcEntry.ok pA, ProcEntry.ok pB]
        [ProcEntry.ok pA, ProcEntry.ok pB] 1 "cpu").1).length ≤ 1 ∧
    (((get_top_processes sReset 0 [ProcEntry.ok pA, ProcEntry.ok pB]
        [ProcEntry.ok pA, ProcEntry.ok pB] 1 "cpu").1).map (fun r => r.pid)).Nodup ∧
    (∀ c : ℚ,
      (sortDesc (fun r => r.cpu_percent)
          (collect_processes [ProcEntry.ok pA, ProcEntry.ok pB])).filter
          (fun r => decide (r.cpu_percent = c)) =
        (collect_processes [ProcEntry.ok pA, ProcEntry.ok pB]).filter
          (fun r => decide (r.cpu_percent = c)))) :=
  ⟨by simp [collect_processes, mkProcRecord, pA, pB],
   topn_cpu_sorted sReset 0 [ProcEntry.ok pA, ProcEntry.ok pB] 1
     (by simp [collect_processes, mkProcRecord, pA, pB])⟩

/-- Claim C10: with the recognized key `memory` the priming pass is
skipped unconditionally — the process table read is the unprimed one, the
priming timestamp (whole state) is unchanged, and the priming flag is
`false` — while the result is the first `num` of the stable descending
`memory_percent` sort. -/
theorem topn_memory_skips_priming (s : MonitorState) (now : ℚ)
    (tp tn : List ProcEntry) (num : ℕ) :
    get_top_processes s now tp tn num "memory" =
      ((sortDesc (fun r => r.memory_percent) (collect_processes tn)).take num,
        s, false) := by
  simp [get_top_processes]

/-- Behaviour of `get_top_processes` under `sort_by='cpu'` when the last
priming pass is at most 5 seconds old: no priming, unprimed table. -/
lemma get_top_processes_cpu_noprime (s : MonitorState) (now : ℚ)
    (tp tn : List ProcEntry) (num : ℕ) (h : ¬ (5 < now - s.proc_prime_ts)) :
    get_top_processes s now tp tn num "cpu" =
      ((sortDesc (fun r => r.cpu_percent) (collect_processes tn)).take num,
        s, false) := by
  simp [get_top_processes, h]

/-- Claim C6 as stated is false: at time 10 from a state last primed at
time 0, the key `'foo'` skips the priming pass that `'cpu'` performs, so
the two calls differ in the stored priming timestamp, in the priming flag,
and (through the primed/unprimed table) in the returned records. -/
theorem unknown_key_differs_from_cpu_cex :
    (get_top_processes sReset 10 [ProcEntry.ok pA] [ProcEntry.ok pB] 1
        "foo").2.1.proc_prime_ts = 0 ∧
    (get_top_processes sReset 10 [ProcEntry.ok pA] [ProcEntry.ok pB] 1
        "cpu").2.1.proc_prime_ts = 10 ∧
    (0 : ℚ) ≠ 10 ∧
    (get_top_processes sReset 10 [ProcEntry.ok pA] [ProcEntry.ok pB] 1 "foo").2.2
      = false ∧
    (get_top_processes sReset 10 [ProcEntry.ok pA] [ProcEntry.ok pB] 1 "cpu").2.2
      = true := by
  have h5 : (5 : ℚ) < 10 := by norm_num
  refine ⟨?_, ?_, by norm_num, ?_, ?_⟩ <;> simp [get_top_processes, sReset, h5]

/-- Claim C6 amended: an unrecognized sort key sorts by `cpu_percent` like
`'cpu'` does, but never runs the priming pass (state unchanged, priming
flag `false`, unprimed table); it is behaviourally identical to
`sortBy='cpu'` exactly when the priming condition does not fire, i.e. the
last priming pass is at most 5 seconds old. -/
theorem unrecognized_key_sorts_like_cpu (s : MonitorState) (now : ℚ)
    (tp tn : List ProcEntry) (num : ℕ) (sort_by : String)
    (h1 : sort_by ≠ "cpu") (h2 : sort_by ≠ "memory") :
    get_top_processes s now tp tn num sort_by =
      ((sortDesc (fun r => r.cpu_percent) (collect_processes tn)).take num,
        s, false) ∧
    (¬ (5 < now - s.proc_prime_ts) →
      get_top_processes s now tp tn num sort_by =
        get_top_processes s now tp tn num "cpu") := by
  have ha : get_top_processes s now tp tn num sort_by =
      ((sortDesc (fun r => r.cpu_percent) (collect_processes tn)).take num,
        s, false) := by
    simp [get_top_processes, h1, h2]
  exact ⟨ha, fun h3 => ha.trans (get_top_processes_cpu_noprime s now tp tn num h3).symm⟩

/-- Witness for `unrecognized_key_sorts_like_cpu` with the key `'foo'`. -/
theorem unrecognized_key_sorts_like_cpu_witness :
    (("foo" : String) ≠ "cpu" ∧ ("foo" : String) ≠ "memory") ∧
    (get_top_processes sReset 3 [ProcEntry.ok pA] [ProcEntry.ok pB] 1 "foo" =
      ((sortDesc (fun r => r.cpu_percent)
        (collect_processes [ProcEntry.ok pB])).take 1, sReset, false) ∧
    (¬ ((5 : ℚ) < 3 - sReset.proc_prime_ts) →
      get_top_processes sReset 3 [ProcEntry.ok pA] [ProcEntry.ok pB] 1 "foo" =
        get_top_processes sReset 3 [ProcEntry.ok pA] [ProcEntry.ok pB] 1 "cpu")) :=
  ⟨⟨by decide, by decide⟩,
   unrecognized_key_sorts_like_cpu sReset 3 [ProcEntry.ok pA] [ProcEntry.ok pB] 1
     "foo" (by decide) (by decide)⟩

/-! ## Claim C8 -/

lemma dequePush_shift (k : ℕ) (xs : List ℚ) (v : ℚ) :
    dequePush k (xs.drop (xs.length - k)) v =
      (xs ++ [v]).drop ((xs ++ [v]).length - k) := by
  unfold dequePush
  rw [← List.drop_append_of_le_length (Nat.sub_le xs.length k)]
  rw [List.drop_drop]
  congr 1
  simp only [List.length_append, List.length_drop, List.length_cons,
    List.length_nil]
  omega

lemma pushAll_drop (k : ℕ) :
    ∀ (vs xs : List ℚ),
      pushAll k (xs.drop (xs.length - k)) vs =
        (xs ++ vs).drop ((xs ++ vs).length - k)
  | [], xs => by simp [pushAll]
  | v :: vs, xs => by
      have h1 : pushAll k (xs.drop (xs.length - k)) (v :: vs) =
          pushAll k (dequePush k (xs.drop (xs.length - k)) v) vs := rfl
      rw [h1, dequePush_shift]
      have h2 := pushAll_drop k vs (xs ++ [v])
      rw [h2]
      simp [List.append_assoc]

lemma pushAll_nil_eq (k : ℕ) (vs : List ℚ) :
    pushAll k [] vs = vs.drop (vs.length - k) := by
  simpa using pushAll_drop k vs []

/-- Claim C8: pushing `m > 20` samples through the capacity-20 history
deque leaves exactly the last 20 pushed values, oldest first, and each
insert into a full deque evicts the oldest sample. -/
theorem history_window_keeps_last_k (vs : List ℚ)
    (h : history_size < vs.length) :
    pushAll history_size [] vs = vs.drop (vs.length - history_size) ∧
    (pushAll history_size [] vs).length = history_size ∧
    (∀ (l : List ℚ) (v : ℚ), l.length = history_size →
      dequePush history_size l v = l.drop 1 ++ [v]) := by
  refine ⟨pushAll_nil_eq _ _, ?_, ?_⟩
  · rw [pushAll_nil_eq]
    simp only [List.length_drop]
    omega
  · intro l v hl
    have hlen : (l ++ [v]).length - history_size = 1 := by
      simp [hl]
    unfold dequePush
    rw [hlen]
    exact List.drop_append_of_le_length (by rw [hl]; norm_num [history_size])

/-- Twenty-one concrete samples. -/
def vsW : List ℚ :=
  [0, 1, 2, 3, 4, 5, 6, 7, 8, 9, 10, 11, 12, 13, 14, 15, 16, 17, 18, 19, 20]

/-- Witness for `history_window_keeps_last_k` on 21 pushed samples. -/
theorem history_window_keeps_last_k_witness :
    history_size < vsW.length ∧
    (pushAll history_size [] vsW = vsW.drop (vsW.length - history_size) ∧
      (pushAll history_size [] vsW).length = history_size ∧
      (∀ (l : List ℚ) (v : ℚ), l.length = history_size →
        dequePush history_size l v = l.drop 1 ++ [v])) :=
  ⟨by simp [vsW, history_size],
   history_window_keeps_last_k vsW (by simp [vsW, history_size])⟩

/-! ## Claim C3 -/

/-- Every record produced by the collection loop comes from a readable
process; vanished/denied processes yield no record. -/
lemma mem_collect_processes {table : List ProcEntry} {r : ProcRecord}
    (h : r ∈ collect_processes table) :
    ∃ p : ProcInfo, ProcEntry.ok p ∈ table ∧ r = mkProcRecord p := by
  unfold collect_processes at h
  rcases List.mem_filterMap.mp h with ⟨e, he, hmatch⟩
  cases e with
  | ok p => exact ⟨p, he, (Option.some.inj hmatch).symm⟩
  | gone => simp at hmatch

/-- Every partition record in a disk report comes from a partition whose
usage read succeeded; permission-denied partitions are excluded. -/
lemma mem_disk_partitions {s : MonitorState} {now : ℚ}
    {parts : List PartitionEntry} {io : Option DiskIO} {rec : PartitionRecord}
    (h : rec ∈ (get_disk_info s now parts io).1.partitions) :
    ∃ p u, p ∈ parts ∧ p.usage = UsageResult.ok u ∧
      rec = mkPartitionRecord p u := by
  have h' : rec ∈ parts.filterMap fun p =>
      match p.usage with
      | .ok u => some (mkPartitionRecord p u)
      | .permissionError => none
      | .fileNotFoundError => none := by
    cases io <;> simpa [get_disk_info] using h
  rcases List.mem_filterMap.mp h' with ⟨p, hp, hmatch⟩
  cases hu : p.usage with
  | ok u =>
      rw [hu] at hmatch
      exact ⟨p, u, hp, hu, (Option.some.inj hmatch).symm⟩
  | permissionError => rw [hu] at hmatch; simp at hmatch
  | fileNotFoundError => rw [hu] at hmatch; simp at hmatch

lemma mem_of_mem_take_sortDesc {α : Type} {key : α → ℚ} {l : List α} {n : ℕ}
    {a : α} (h : a ∈ (sortDesc key l).take n) : a ∈ l :=
  (sortDesc_perm key l).mem_iff.mp (List.take_subset n _ h)

/-- Shape of the list returned by `get_top_processes`: the first `num` of
a stable descending sort of the records collected from one of the two
possible enumerations. -/
lemma get_top_processes_shape (s : MonitorState) (now : ℚ)
    (tp tn : List ProcEntry) (num : ℕ) (sort_by : String) :
    ∃ (key : ProcRecord → ℚ) (table : List ProcEntry),
      (table = tp ∨ table = tn) ∧
      (get_top_processes s now tp tn num sort_by).1 =
        (sortDesc key (collect_processes table)).take num := by
  by_cases hA : (if sort_by = "cpu" ∨ sort_by = "memory"
      then sort_by else "cpu") = "cpu" <;>
    by_cases hC : (sort_by == "cpu" && decide (5 < now - s.proc_prime_ts)) = true
  · exact ⟨fun r => r.cpu_percent, tp, Or.inl rfl,
      by simp [get_top_processes, hA, hC]⟩
  · exact ⟨fun r => r.cpu_percent, tn, Or.inr rfl,
      by simp [get_top_processes, hA, hC]⟩
  · exact ⟨fun r => r.memory_percent, tp, Or.inl rfl,
      by simp [get_top_processes, hA, hC]⟩
  · exact ⟨fun r => r.memory_percent, tn, Or.inr rfl,
      by simp [get_top_processes, hA, hC]⟩

/-- Every record returned by `get_top_processes` comes from a readable
entry of one of the two possible enumerations. -/
lemma mem_top_processes {s : MonitorState} {now : ℚ}
    {tp tn : List ProcEntry} {num : ℕ} {sort_by : String} {pr : ProcRecord}
    (h : pr ∈ (get_top_processes s now tp tn num sort_by).1) :
    ∃ pi : ProcInfo, (ProcEntry.ok pi ∈ tp ∨ ProcEntry.ok pi ∈ tn) ∧
      pr = mkProcRecord pi := by
  rcases get_top_processes_shape s now tp tn num sort_by with ⟨key, table, htab, heq⟩
  rw [heq] at h
  rcases mem_collect_processes (mem_of_mem_take_sortDesc h) with ⟨pi, hpi, hrec⟩
  rcases htab with rfl | rfl
  · exact ⟨pi, Or.inl hpi, hrec⟩
  · exact ⟨pi, Or.inr hpi, hrec⟩

/-- On a cache miss a failing probe yields `None`. -/
lemma get_temperature_info_fail_none (s : MonitorState) (now : ℚ)
    (p : ProbeResult) (hn : s.last_temp = none) (hf : p.isFailure = true) :
    (get_temperature_info s now p).1 = none := by
  unfold get_temperature_info
  by_cases he : s.enable_temps = false
  · simp [he]
  · rw [if_neg he]
    rw [if_neg (by simp [hn])]
    cases p with
    | success temps => simp [ProbeResult.isFailure] at hf
    | nonzeroExit => rfl
    | timeoutExpired => rfl
    | fileNotFound => rfl
    | calledProcessError => rfl

/-- Claim C3: a sampling tick is a total function of the OS inputs (it is
defined for every world, including every failure variant), and every
recoverable condition shows up structurally: a missing battery gives a
`None` battery field, a failing probe (timeout, non-zero exit, missing
binary) with no cached reading gives a `None` temperature, partitions
whose usage read raised are excluded from the disk list, and vanished or
access-denied processes are excluded from the top-process list. -/
theorem sample_recoverable_absent (s : MonitorState) (w : World)
    (top_n : ℕ) (sort_by : String)
    (hb : w.battery = none) (hp : w.probe.isFailure = true)
    (ht : s.last_temp = none) :
    (get_json_report s w true top_n sort_by true).1.battery = some none ∧
    (get_json_report s w true top_n sort_by true).1.temperature = none ∧
    (∀ rec ∈ (get_json_report s w true top_n sort_by true).1.disk.partitions,
      ∃ p u, p ∈ w.partitions ∧ p.usage = UsageResult.ok u ∧
        rec = mkPartitionRecord p u) ∧
    (∀ pr ∈ ((get_json_report s w true top_n sort_by true).1.top_processes).getD [],
      ∃ pi : ProcInfo,
        (ProcEntry.ok pi ∈ w.table_primed ∨ ProcEntry.ok pi ∈ w.table_unprimed) ∧
        pr = mkProcRecord pi) := by
  refine ⟨?_, ?_, ?_, ?_⟩
  · simp [get_json_report, get_battery_info, hb]
  · show (get_temperature_info
        (get_network_info (get_disk_info s w.now w.partitions w.disk_io).2
          w.net_io w.now).2 w.now w.probe).1 = none
    apply get_temperature_info_fail_none _ _ _ _ hp
    rw [get_network_info_state, get_disk_info_state]
    cases w.disk_io <;> simpa using ht
  · intro rec hrec
    exact mem_disk_partitions hrec
  · intro pr hpr
    simp only [get_json_report, if_pos, Option.getD_some] at hpr
    exact mem_top_processes hpr

/-- Concrete world in which every recoverable condition fires at once: no
battery, probe timeout, one permission-denied partition, one vanished
process in each enumeration. -/
def wFail : World :=
  { now := 100
    boot_time := 0
    cpu_overall := 10
    cpu_per_core := [10]
    core_count := some 1
    thread_count := some 1
    cpu_freq := none
    mem := { total := 0, available := 0, used := 0, percent := 0 }
    swap := { total := 0, used := 0, percent := 0 }
    partitions := [{ device := "d", mountpoint := "m", fstype := "apfs",
                     usage := UsageResult.permissionError }]
    disk_io := none
    net_io := { bytes_sent := 0, bytes_recv := 0, packets_sent := 0,
                packets_recv := 0 }
    battery := none
    probe := ProbeResult.timeoutExpired
    table_primed := [ProcEntry.gone]
    table_unprimed := [ProcEntry.gone] }

/-- Witness for `sample_recoverable_absent` at the all-failures world. -/
theorem sample_recoverable_absent_witness :
    (wFail.battery = none ∧ wFail.probe.isFailure = true ∧
      sReset.last_temp = none) ∧
    ((get_json_report sReset wFail true 10 "cpu" true).1.battery = some none ∧
      (get_json_report sReset wFail true 10 "cpu" true).1.temperature = none ∧
      (∀ rec ∈ (get_json_report sReset wFail true 10 "cpu" true).1.disk.partitions,
        ∃ p u, p ∈ wFail.partitions ∧ p.usage = UsageResult.ok u ∧
          rec = mkPartitionRecord p u) ∧
      (∀ pr ∈ ((get_json_report sReset wFail true 10 "cpu"
          true).1.top_processes).getD [],
        ∃ pi : ProcInfo,
          (ProcEntry.ok pi ∈ wFail.table_primed ∨
            ProcEntry.ok pi ∈ wFail.table_unprimed) ∧
          pr = mkProcRecord pi)) :=
  ⟨⟨rfl, rfl, rfl⟩, sample_recoverable_absent sReset wFail 10 "cpu" rfl rfl rfl⟩

end PerfMon
